import Mathlib

set_option maxRecDepth 100000

/-!
Verification development for the SnapLogic pipeline validation tooling.

The embedding models, line by line, the two validators of the repository:

* `src/validation/validate_structure.awk` (the "fast path"): a single-pass
  line scanner.  Each awk pattern/action pair becomes a `rule*` function on
  an explicit `AwkState`, applied in the source order of the rules; the awk
  `END` block becomes `awkEnd`, and `fastRun` packages exit code and printed
  lines.  The awk variables `link_dst_ids`, `link_src_ids` and `snap_map_ids`
  are written by the scanner but never read by the `END` block (they feed no
  check), so the model keeps only the counters the `END` block consumes;
  the `in_link` flag is kept because the source maintains it.

* `src/validation/validate-slp.sh` (the "comprehensive path"): each
  `validate_*` shell function becomes a function from the file's lines to a
  success flag plus a list of recorded `Entry` values (the strings appended
  to `VALIDATION_RESULTS`); `compMain` mirrors `main`, which runs all four
  validators unconditionally and exits 0 iff all succeeded.  The JSON
  syntax check delegates to an external tool (`python3 -m json.tool`), so
  its verdict enters the model as a boolean parameter.

A file is modelled as its list of lines, each line a list of characters.
The grep/awk regular expressions used by the scripts are implemented as
explicit matchers; every one of them is anchored at a position and searched
over all suffixes of a line (`hasMatch` / `lineCaps`), which agrees with
unanchored POSIX matching for these patterns (none of them can overlap with
itself inside a line).
-/

namespace Vibe

/-- A line of the validated file, as its list of characters. -/
abbrev Line := List Char

/-- Substring test: does `sub` occur inside `l`?  (grep with a literal
pattern counts a line iff this holds.) -/
def containsSub (sub : Line) (l : Line) : Bool := l.tails.any (fun t => sub.isPrefixOf t)

/-- Occurrence search: does the position-anchored matcher `p` fire at some
position of `l`? -/
def hasMatch (p : Line → Bool) (l : Line) : Bool := l.tails.any p

/-- All captures of a position-anchored capturing matcher over a line, in
left-to-right position order.  For the patterns in this file two distinct
match positions can never overlap, so this coincides with `grep -o`. -/
def lineCaps (p : Line → Option Line) (l : Line) : List Line := l.tails.filterMap p

/-- Literal pattern `"class_id": "com-snaplogic-pipeline"` (both paths). -/
def patClassPipeline : Line := ("\"class_id\": \"com-snaplogic-pipeline\"").data

/-- Literal pattern `"class_id": "com-snaplogic-snaps-` (both paths count a
line as declaring a snap iff it contains this). -/
def patSnapsClass : Line := ("\"class_id\": \"com-snaplogic-snaps-").data

/-- Literal pattern `"snap_map": \x7b` — the awk rule that enters the
snap_map section. -/
def patSnapMapKey : Line := ("\"snap_map\": \x7b").data

/-- Literal pattern `"snap_map"` — the pattern of `grep -A 1000 '"snap_map"'`
in `validate_uuids`. -/
def patSnapMapQuoted : Line := ("\"snap_map\"").data

/-- The fixed UUID marker `11111111-1111-1111-1111-` (24 characters). -/
def uuidMarker : Line := ("11111111-1111-1111-1111-").data

/-- awk regex `"link[0-9]+": \x7b` anchored at the head of `l`: literal
`"link`, one or more digits, then `": \x7b`.  Maximal-munch on the digits is
equivalent to the regex because the following literal starts with a
non-digit. -/
def linkKeyAwkAt (l : Line) : Bool :=
  ("\"link").data.isPrefixOf l &&
    (let rest := l.drop 5
     let ds := rest.takeWhile Char.isDigit
     !ds.isEmpty && ("\": \x7b").data.isPrefixOf (rest.drop ds.length))

/-- shell regex `"link[0-9]*":` anchored at the head of `l`: literal
`"link`, zero or more digits, then `":`. -/
def linkKeyShellAt (l : Line) : Bool :=
  ("\"link").data.isPrefixOf l &&
    ("\":").data.isPrefixOf ((l.drop 5).dropWhile Char.isDigit)

/-- Regex `"11111111-1111-1111-1111-[0-9]\x7b12\x7d": \x7b` anchored at the
head of `l` (the snap_map key shape used by the awk id rule and by the
shell's snap_map extraction). -/
def uuidKeyAt (l : Line) : Bool :=
  match l with
  | [] => false
  | c :: rest =>
    c == '"' && uuidMarker.isPrefixOf rest &&
      (let ds := (rest.drop 24).take 12
       ds.length == 12 && ds.all Char.isDigit &&
         ("\": \x7b").data.isPrefixOf (rest.drop 36))

/-- Capturing form of `uuidKeyAt`: returns the 36-character UUID. -/
def uuidKeyCap (l : Line) : Option Line :=
  if uuidKeyAt l then some (uuidMarker ++ (l.drop 25).take 12) else none

/-- shell regex `"(src_id|dst_id)": "11111111-1111-1111-1111-[0-9]\x7b12\x7d"`
anchored at the head of `l`, capturing the UUID.  Exactly twelve digits are
accepted: a thirteenth digit fails the closing-quote test, as in the regex. -/
def endpointCapAt (l : Line) : Option Line :=
  let tryKey : Line → Option Line := fun k =>
    if k.isPrefixOf l then
      let rest := l.drop k.length
      if uuidMarker.isPrefixOf rest then
        let ds := (rest.drop 24).take 12
        if ds.length == 12 && ds.all Char.isDigit && ((rest.drop 36).head? == some '"')
        then some (uuidMarker ++ ds) else none
      else none
    else none
  match tryKey (("\"src_id\": \"").data) with
  | some u => some u
  | none => tryKey (("\"dst_id\": \"").data)

/-- Generic endpoint value at the head of `l`: awk capture shape
`"(src_id|dst_id)": "([^"]+)"`, any nonempty quoted value.  Used to state
which identifiers a document's edges actually reference (the claim language),
independently of the UUID-shaped filter the shell applies. -/
def anyEndpointCapAt (l : Line) : Option Line :=
  let tryKey : Line → Option Line := fun k =>
    if k.isPrefixOf l then
      let v := (l.drop k.length).takeWhile (fun c => c != '"')
      if !v.isEmpty && ((l.drop (k.length + v.length)).head? == some '"')
      then some v else none
    else none
  match tryKey (("\"src_id\": \"").data) with
  | some u => some u
  | none => tryKey (("\"dst_id\": \"").data)

/-- Generic mapping key at the head of `l`: shape `"([^"]+)": \x7b`.  Used to
state which keys a document's mappings actually declare. -/
def anyKeyCapAt (l : Line) : Option Line :=
  match l with
  | [] => none
  | c :: rest =>
    if c == '"' then
      let v := rest.takeWhile (fun d => d != '"')
      if !v.isEmpty && ("\": \x7b").data.isPrefixOf (rest.drop v.length)
      then some v else none
    else none

/-- awk regex `^[[:space:]]*\x7d,$`: optional whitespace, then `\x7d,`, end
of line. -/
def isCloseBraceLine (l : Line) : Bool :=
  l.dropWhile Char.isWhitespace == ['\x7d', ',']

/-- All identifiers referenced as an edge endpoint anywhere in the document
(generic capture, no UUID-shape filter). -/
def docEndpoints (lines : List Line) : List Line :=
  lines.flatMap (lineCaps anyEndpointCapAt)

/-- All mapping keys declared anywhere in the document (generic capture). -/
def docKeys (lines : List Line) : List Line :=
  lines.flatMap (lineCaps anyKeyCapAt)

/-! ## Fast path: `validate_structure.awk` -/

/-- The scanner state of `validate_structure.awk` — the `BEGIN`-initialised
variables that the `END` block reads, plus the two section flags. -/
structure AwkState where
  snap_count : Nat := 0
  link_count : Nat := 0
  pipeline_class_found : Bool := false
  snap_ids_found : Nat := 0
  in_link : Bool := false
  in_snap_map : Bool := false
deriving Repr, DecidableEq

/-- awk rule: on pattern `"class_id": "com-snaplogic-pipeline"` set
`pipeline_class_found`. -/
def ruleClass (l : Line) (s : AwkState) : AwkState :=
  if containsSub patClassPipeline l then { s with pipeline_class_found := true } else s

/-- awk rule: on pattern `"class_id": "com-snaplogic-snaps-` increment
`snap_count`. -/
def ruleSnaps (l : Line) (s : AwkState) : AwkState :=
  if containsSub patSnapsClass l then { s with snap_count := s.snap_count + 1 } else s

/-- awk rule: on pattern `"link[0-9]+": \x7b` set `in_link` and increment
`link_count`. -/
def ruleLinks (l : Line) (s : AwkState) : AwkState :=
  if hasMatch linkKeyAwkAt l then { s with in_link := true, link_count := s.link_count + 1 } else s

/-- awk rule: when `in_link` holds and the line is `^[[:space:]]*\x7d,$`,
clear `in_link`.  (The two rules between, which collect `dst_id`/`src_id`
strings while `in_link` holds, write only the dead variables
`link_dst_ids` and `link_src_ids`.) -/
def ruleLinkEnd (l : Line) (s : AwkState) : AwkState :=
  if s.in_link && isCloseBraceLine l then { s with in_link := false } else s

/-- awk rule: on pattern `"snap_map": \x7b` set `in_snap_map`.  No rule of
the script ever resets this flag. -/
def ruleSnapMapEnter (l : Line) (s : AwkState) : AwkState :=
  if containsSub patSnapMapKey l then { s with in_snap_map := true } else s

/-- awk rule: when `in_snap_map` holds and the UUID-key pattern occurs,
increment `snap_ids_found` (the `match` call that also appends to the dead
variable `snap_map_ids` always succeeds when the guard pattern occurs, so
the counter increments exactly once per matching line). -/
def ruleSnapIds (l : Line) (s : AwkState) : AwkState :=
  if s.in_snap_map && hasMatch uuidKeyAt l then
    { s with snap_ids_found := s.snap_ids_found + 1 } else s

/-- One line of the awk scan: the pattern/action rules applied in source
order (state updates earlier in a line are visible to later rules of the
same line, as in awk). -/
def awkStep (s : AwkState) (l : Line) : AwkState :=
  ruleSnapIds l (ruleSnapMapEnter l (ruleLinkEnd l (ruleLinks l (ruleSnaps l (ruleClass l s)))))

/-- The `BEGIN` state. -/
def awkInit : AwkState := {}

/-- The state after scanning the whole file. -/
def awkScan (lines : List Line) : AwkState := lines.foldl awkStep awkInit

/-- The diagnostic printed by the `END` block's link/snap mismatch branch. -/
def awkLinkMismatchMsg (links snaps : Nat) : String :=
  "Link/snap mismatch: " ++ toString links ++ " links for " ++ toString snaps
    ++ " snaps (expected " ++ toString (snaps - 1) ++ ")"

/-- The diagnostic printed by the `END` block's snap-id mismatch branch. -/
def awkSnapIdMsg (found snaps : Nat) : String :=
  "Snap ID mismatch: found " ++ toString found ++ " snap IDs for " ++ toString snaps ++ " snaps"

/-- First `END` check: missing pipeline class. -/
def awkClassError (s : AwkState) : Option String :=
  if !s.pipeline_class_found then some ("Missing pipeline class_id") else none

/-- Second `END` check: for more than one snap, exactly `snap_count - 1`
links are required. -/
def awkLinkError (s : AwkState) : Option String :=
  if 1 < s.snap_count ∧ s.link_count ≠ s.snap_count - 1 then
    some (awkLinkMismatchMsg s.link_count s.snap_count)
  else none

/-- Third `END` check: the snap-id count must equal the snap count. -/
def awkIdError (s : AwkState) : Option String :=
  if s.snap_ids_found ≠ s.snap_count then some (awkSnapIdMsg s.snap_ids_found s.snap_count)
  else none

/-- The `END` block: the three checks in order; the first failing one
yields the (single) diagnostic, otherwise no output. -/
def awkEnd (s : AwkState) : Option String :=
  match awkClassError s with
  | some m => some m
  | none =>
    match awkLinkError s with
    | some m => some m
    | none => awkIdError s

/-- Whole fast-path run: exit code and the list of printed lines.  The
scanning rules print nothing; only `END` prints, and it exits immediately
after the first failing check. -/
def fastRun (lines : List Line) : Nat × List String :=
  match awkEnd (awkScan lines) with
  | none => (0, [])
  | some m => (1, [m])

/-! ## Comprehensive path: `validate-slp.sh` -/

/-- `grep -q '"class_id": "com-snaplogic-pipeline"'`. -/
def compClassFound (lines : List Line) : Bool :=
  lines.any (containsSub patClassPipeline)

/-- `grep -c '"class_id": "com-snaplogic-snaps-'` (lines containing a match). -/
def compSnapCount (lines : List Line) : Nat :=
  lines.countP (containsSub patSnapsClass)

/-- `grep -c '"link[0-9]*":'`. -/
def compLinkCount (lines : List Line) : Nat :=
  lines.countP (hasMatch linkKeyShellAt)

/-- `grep -A 1000 '"snap_map"'`: every matching line plus the up-to-1000
lines following a match (overlapping windows merged, as grep does). -/
def grepAfterSnapMap : List Line → Nat → List Line
  | [], _ => []
  | l :: rest, rem =>
    if containsSub patSnapMapQuoted l then l :: grepAfterSnapMap rest 1000
    else if 0 < rem then l :: grepAfterSnapMap rest (rem - 1)
    else grepAfterSnapMap rest rem

/-- The UUIDs referenced by `src_id`/`dst_id` entries anywhere in the file
(`sort -u` applied by the script orders and deduplicates; only the
deduplicated membership matters to every later use, so the model keeps
first-occurrence order). -/
def linkUuidsOf (lines : List Line) : List Line :=
  (lines.flatMap (lineCaps endpointCapAt)).dedup

/-- The UUID-shaped mapping keys found in the `grep -A 1000 '"snap_map"'`
window, deduplicated. -/
def snapMapUuidsOf (lines : List Line) : List Line :=
  ((grepAfterSnapMap lines 0).flatMap (lineCaps uuidKeyCap)).dedup

/-- The referenced UUIDs missing from the snap_map window.  The script
tests membership with `grep -q "$uuid"` over the newline-separated key
list; since both sides are exactly 36 characters drawn from the same fixed
pattern, substring containment coincides with list membership. -/
def missingUuidsOf (lines : List Line) : List Line :=
  (linkUuidsOf lines).filter (fun u => !(snapMapUuidsOf lines).contains u)

/-- One recorded line of `VALIDATION_RESULTS` (`ERROR: …` or `WARNING: …`). -/
inductive Entry where
  | error (msg : String)
  | warning (msg : String)
deriving Repr, DecidableEq

/-- Is the entry an error (as counted by `ERROR_COUNT`)? -/
def Entry.isErr : Entry → Bool
  | .error _ => true
  | .warning _ => false

/-- The script's JSON well-formedness validator function: delegates to
`python3 -m json.tool`, an external parser; its verdict is the boolean
parameter.  On failure one error is recorded (its text embeds the parser's
own message, abstracted here). -/
def validate_json_wf (jsonValid : Bool) : Bool × List Entry :=
  if jsonValid then (true, []) else (false, [Entry.error ("JSON syntax error")])

/-- Error text of the snap/link mismatch branch. -/
def structMismatchMsg (snaps expected found : Nat) : String :=
  "Snap/link count mismatch: " ++ toString snaps ++ " snaps should have "
    ++ toString expected ++ " links, found " ++ toString found

/-- Warning text of the single-snap branch. -/
def singleSnapWarnMsg (links : Nat) : String :=
  "Single snap pipeline has " ++ toString links ++ " links (unusual but may be valid)"

/-- `validate_pipeline_structure`: class_id presence, then the
snap-count/link-count relationship. -/
def validate_pipeline_structure (lines : List Line) : Bool × List Entry :=
  if !compClassFound lines then
    (false, [Entry.error ("Missing pipeline class_id: com-snaplogic-pipeline")])
  else if 1 < compSnapCount lines then
    if compLinkCount lines = compSnapCount lines - 1 then (true, [])
    else
      (false,
       [Entry.error
          (structMismatchMsg (compSnapCount lines) (compSnapCount lines - 1)
            (compLinkCount lines))])
  else if compSnapCount lines = 1 then
    if compLinkCount lines = 0 then (true, [])
    else (true, [Entry.warning (singleSnapWarnMsg (compLinkCount lines))])
  else (false, [Entry.error ("No snaps found in pipeline")])

/-- Error text of the dangling-reference branch. -/
def danglingMsg (u : Line) : String :=
  "UUID " ++ String.mk u ++ " referenced in link_map but not found in snap_map"

/-- `validate_uuids`: one error per referenced-but-undeclared UUID; succeeds
iff none is missing. -/
def validate_uuids (lines : List Line) : Bool × List Entry :=
  if (missingUuidsOf lines).isEmpty then (true, [])
  else (false, (missingUuidsOf lines).map (fun u => Entry.error (danglingMsg u)))

/-- The four literal field patterns of `validate_required_fields`, in loop
order. -/
def requiredFieldPats : List Line :=
  [("\"class_id\"").data, ("\"class_version\"").data,
   ("\"property_map\"").data, ("\"snap_map\"").data]

/-- `validate_required_fields`: returns at the first absent field. -/
def validate_required_fields (lines : List Line) : Bool × List Entry :=
  match requiredFieldPats.find? (fun f => !lines.any (containsSub f)) with
  | some f => (false, [Entry.error ("Missing required field: " ++ String.mk f)])
  | none => (true, [])

/-- Outcome of a comprehensive run: exit code plus the recorded entries. -/
structure CompReport where
  exit : Nat
  entries : List Entry
deriving Repr, DecidableEq

/-- `main`: the four validators run unconditionally (each under
`|| validation_passed=false`, so no one of them aborts the run); exit 0 iff
all of them succeeded. -/
def compMain (jsonValid : Bool) (lines : List Line) : CompReport :=
  let r1 := validate_json_wf jsonValid
  let r2 := validate_pipeline_structure lines
  let r3 := validate_uuids lines
  let r4 := validate_required_fields lines
  { exit := if r1.1 && r2.1 && r3.1 && r4.1 then 0 else 1,
    entries := r1.2 ++ r2.2 ++ r3.2 ++ r4.2 }

/-- `ERROR_COUNT` of a run. -/
def errorCount (r : CompReport) : Nat := r.entries.countP Entry.isErr

/-- `WARNING_COUNT` of a run. -/
def warningCount (r : CompReport) : Nat := r.entries.countP (fun e => !e.isErr)

/-! ## Command-line handling of `validate-slp.sh` -/

/-- The option state built by the argument loop. -/
structure Config where
  verbose : Bool := false
  quiet : Bool := false
  json : Bool := false
  file : String := ""
deriving Repr, DecidableEq

/-- Result of the `while [[ $# -gt 0 ]]` loop: the help flag exits via
`usage` (exit 1); a second positional argument exits with the
multiple-files error; otherwise the loop completes with a `Config`. -/
inductive ArgOutcome where
  | exitUsage
  | exitMultipleFiles
  | run (c : Config)
deriving Repr, DecidableEq

/-- Is the argument one of the recognised option flags? -/
def isFlag (a : String) : Bool :=
  (a == "-v" || a == "--verbose") || (a == "-q" || a == "--quiet") ||
    (a == "-j" || a == "--json") || (a == "-h" || a == "--help")

/-- The argument loop, one case per `case $1 in` branch, processed left to
right with the running `Config`. -/
def parseArgsFrom : List String → Config → ArgOutcome
  | [], c => .run c
  | a :: rest, c =>
    if a == "-v" || a == "--verbose" then parseArgsFrom rest { c with verbose := true }
    else if a == "-q" || a == "--quiet" then parseArgsFrom rest { c with quiet := true }
    else if a == "-j" || a == "--json" then parseArgsFrom rest { c with json := true }
    else if a == "-h" || a == "--help" then .exitUsage
    else if c.file == "" then parseArgsFrom rest { c with file := a }
    else .exitMultipleFiles

/-- The argument loop from the initial option state. -/
def parseArgs (args : List String) : ArgOutcome := parseArgsFrom args {}

/-- Observable outcome of one invocation of the tool: exit code, the list
of files actually opened and validated, and the fatal pre-validation
message if the run never reached validation. -/
structure ToolRun where
  exit : Nat
  validated : List String
  preError : Option String
deriving Repr, DecidableEq

/-- The multiple-files diagnostic printed by the argument loop. -/
def multiFilesMsg : String :=
  "Error: Multiple files specified. This tool validates one file at a time."

/-- Whole invocation: argument loop, then the empty/missing-file checks,
then `main` on the single selected file.  The filesystem is the function
`fs`: for an existing path it yields the JSON-syntax verdict of the
external parser together with the file's lines. -/
def runTool (args : List String) (fs : String → Option (Bool × List Line)) : ToolRun :=
  match parseArgs args with
  | .exitUsage => { exit := 1, validated := [], preError := some ("usage") }
  | .exitMultipleFiles => { exit := 1, validated := [], preError := some multiFilesMsg }
  | .run c =>
    if c.file == "" then
      { exit := 1, validated := [], preError := some ("Error: No pipeline file specified.") }
    else
      match fs c.file with
      | none =>
        { exit := 1, validated := [],
          preError := some ("Error: File " ++ c.file ++ " not found.") }
      | some (jsonValid, lines) =>
        { exit := (compMain jsonValid lines).exit, validated := [c.file], preError := none }

/-! ## Schema cache search: `mcp-snaplogic-schema/cache.js`

The catalog is modelled as the association list of its `class_id → info`
entries in `Map` iteration (= insertion) order; a JavaScript `Map` never
holds two entries with the same key, which is the `Nodup` hypothesis of the
search theorem.  JavaScript string operations are modelled for the ASCII
strings these identifiers and descriptions are made of (`toLowerCase`,
`trim`, `includes`, `startsWith`, and `split` on the separator class). -/

/-- The compact per-snap record stored in the catalog. -/
structure SnapInfo where
  name : String
  category : String
  description : String
  version : Nat
deriving Repr, DecidableEq

/-- ASCII `toLowerCase` on a character list (all strings handled by the
tool are ASCII). -/
def toLowerL (l : List Char) : List Char := l.map Char.toLower

/-- JavaScript `trim`: strip leading and trailing whitespace. -/
def trimL (l : List Char) : List Char :=
  ((l.dropWhile Char.isWhitespace).reverse.dropWhile Char.isWhitespace).reverse

/-- `query.toLowerCase().trim()`, as its character list. -/
def normQuery (q : String) : List Char := trimL (toLowerL q.data)

/-- The separator class of the regex used by `split`: whitespace, dash,
underscore, dot. -/
def isSepChar (c : Char) : Bool :=
  c.isWhitespace || c == '-' || c == '_' || c == '.'

/-- Accumulator worker for `wordsBy`: `cur` is the reversed current run of
non-separator characters. -/
def wordsByGo (p : Char → Bool) (cur : List Char) : List Char → List (List Char)
  | [] => if cur.isEmpty then [] else [cur.reverse]
  | c :: rest =>
    if p c then
      if cur.isEmpty then wordsByGo p [] rest else cur.reverse :: wordsByGo p [] rest
    else wordsByGo p (c :: cur) rest

/-- The nonempty maximal runs of non-separator characters of `l` — the
result of `split(...)` followed by the nonempty filter. -/
def wordsBy (p : Char → Bool) (l : List Char) : List (List Char) := wordsByGo p [] l

/-- `a.includes(b)` on character lists. -/
def strIncludes (hay needle : List Char) : Bool := containsSub needle hay

/-- `searchableText` of one catalog entry:
`(classId + " " + name + " " + description).toLowerCase()`. -/
def searchableText (classId : String) (s : SnapInfo) : List Char :=
  toLowerL (classId ++ " " ++ s.name ++ " " ++ s.description).data

/-- The match score computed inside `searchSnaps` for an entry whose
searchable text contains the query: base 5 for an exact word match, 3 for a
word starting with the query, otherwise 1; plus 1 if the query occurs in
the class id and 1 if it occurs in the display name. -/
def scoreOf (q : List Char) (classId : String) (s : SnapInfo) : Nat :=
  let words := wordsBy isSepChar (searchableText classId s)
  let base :=
    if words.contains q then 5
    else if words.any (fun w => q.isPrefixOf w) then 3
    else 1
  let b1 := if strIncludes (toLowerL classId.data) q then 1 else 0
  let b2 := if strIncludes (toLowerL s.name.data) q then 1 else 0
  base + b1 + b2

/-- The category filter: skip an entry iff a category was supplied and the
entry's category differs from its lower-cased form (`null` and the empty
string are both falsy in the source, hence `Option`). -/
def categoryPass (cat : Option String) (s : SnapInfo) : Bool :=
  match cat with
  | none => true
  | some c => s.category.data == toLowerL c.data

/-- The comparator of the final sort, as a relation: strictly higher score
first, ties broken by `localeCompare` on the class id (lexicographic for
these ASCII ids). -/
def hitRel (q : List Char) (a b : String × SnapInfo) : Prop :=
  scoreOf q b.1 b.2 < scoreOf q a.1 a.2 ∨
    (scoreOf q a.1 a.2 = scoreOf q b.1 b.2 ∧ a.1 ≤ b.1)

instance (q : List Char) (a b : String × SnapInfo) : Decidable (hitRel q a b) := by
  unfold hitRel; infer_instance

instance (q : List Char) : IsTotal (String × SnapInfo) (hitRel q) := by
  constructor
  intro a b
  rcases Nat.lt_trichotomy (scoreOf q a.1 a.2) (scoreOf q b.1 b.2) with h | h | h
  · exact Or.inr (Or.inl h)
  · rcases le_total a.1 b.1 with hle | hle
    · exact Or.inl (Or.inr ⟨h, hle⟩)
    · exact Or.inr (Or.inr ⟨h.symm, hle⟩)
  · exact Or.inl (Or.inl h)

instance (q : List Char) : IsTrans (String × SnapInfo) (hitRel q) := by
  constructor
  intro a b c hab hbc
  rcases hab with hab | ⟨hab, hab'⟩ <;> rcases hbc with hbc | ⟨hbc, hbc'⟩
  · exact Or.inl (hbc.trans hab)
  · exact Or.inl (hbc ▸ hab)
  · exact Or.inl (hab ▸ hbc)
  · exact Or.inr ⟨hab.trans hbc, hab'.trans hbc'⟩

/-- `searchSnaps(query, category)`: empty for a normalised query shorter
than two characters; otherwise the catalog entries whose searchable text
contains the query and that pass the category filter, sorted by the
comparator.  The source sorts `(classId, score)` pairs and then re-reads
each entry from the `Map`; with unique keys that lookup returns the stored
record, so the model sorts the entries directly. -/
def searchSnaps (catalog : List (String × SnapInfo)) (query : String)
    (category : Option String) : List (String × SnapInfo) :=
  if (normQuery query).length < 2 then []
  else
    (catalog.filter (fun e =>
        categoryPass category e.2 &&
          strIncludes (searchableText e.1 e.2) (normQuery query))).insertionSort
      (hitRel (normQuery query))

/-! ## Concrete documents

Each example is the list of lines of a small pipeline file.  Braces are
written with hexadecimal escapes. -/

/-- Number of opening braces in the whole document. -/
def openBraces (lines : List Line) : Nat := (lines.flatMap id).count '\x7b'

/-- Number of closing braces in the whole document. -/
def closeBraces (lines : List Line) : Nat := (lines.flatMap id).count '\x7d'

/-- Equal brace counts — a necessary condition for a document containing no
brace inside a string literal (true of every example here) to parse as
JSON. -/
def bracesBalanced (lines : List Line) : Bool := openBraces lines == closeBraces lines

/-- A well-formed two-snap pipeline with one link: valid JSON, both
validators accept it. -/
def exOk : List Line := List.map String.data
  ["\x7b",
   "\"class_id\": \"com-snaplogic-pipeline\",",
   "\"class_version\": 9,",
   "\"property_map\": \x7b\x7d,",
   "\"snap_map\": \x7b",
   "\"11111111-1111-1111-1111-000000000000\": \x7b",
   "\"class_id\": \"com-snaplogic-snaps-a-b\"",
   "\x7d,",
   "\"11111111-1111-1111-1111-000000000001\": \x7b",
   "\"class_id\": \"com-snaplogic-snaps-a-c\"",
   "\x7d",
   "\x7d,",
   "\"link_map\": \x7b",
   "\"link1\": \x7b",
   "\"src_id\": \"11111111-1111-1111-1111-000000000000\",",
   "\"dst_id\": \"11111111-1111-1111-1111-000000000001\"",
   "\x7d",
   "\x7d",
   "\x7d"]

/-- A well-formed single-snap pipeline with no links. -/
def exOne : List Line := List.map String.data
  ["\x7b",
   "\"class_id\": \"com-snaplogic-pipeline\",",
   "\"class_version\": 9,",
   "\"property_map\": \x7b\x7d,",
   "\"snap_map\": \x7b",
   "\"11111111-1111-1111-1111-000000000000\": \x7b",
   "\"class_id\": \"com-snaplogic-snaps-a-b\"",
   "\x7d",
   "\x7d",
   "\x7d"]

/-- A valid-JSON single-snap pipeline whose link's `src_id` is the string
`bogus` — an edge endpoint that is not a key of any mapping. -/
def exC2 : List Line := List.map String.data
  ["\x7b",
   "\"class_id\": \"com-snaplogic-pipeline\",",
   "\"class_version\": 9,",
   "\"property_map\": \x7b\x7d,",
   "\"snap_map\": \x7b",
   "\"11111111-1111-1111-1111-000000000000\": \x7b",
   "\"class_id\": \"com-snaplogic-snaps-a-b\"",
   "\x7d",
   "\x7d,",
   "\"link_map\": \x7b",
   "\"link1\": \x7b",
   "\"src_id\": \"bogus\",",
   "\"dst_id\": \"11111111-1111-1111-1111-000000000000\"",
   "\x7d",
   "\x7d",
   "\x7d"]

/-- A truncated document: three unclosed braces, not parseable as JSON. -/
def exC3 : List Line := List.map String.data
  ["\x7b",
   "\"class_id\": \"com-snaplogic-pipeline\",",
   "\"snap_map\": \x7b",
   "\"11111111-1111-1111-1111-000000000000\": \x7b",
   "\"class_id\": \"com-snaplogic-snaps-a-b\""]

/-- A valid-JSON pipeline document whose `snap_map` is empty: zero snaps. -/
def exC4 : List Line := List.map String.data
  ["\x7b",
   "\"class_id\": \"com-snaplogic-pipeline\",",
   "\"class_version\": 9,",
   "\"property_map\": \x7b\x7d,",
   "\"snap_map\": \x7b",
   "\x7d",
   "\x7d"]

/-- A valid-JSON two-snap pipeline whose `link_map` holds the entry
`"link1": 0`: the shell's `"link[0-9]*":` count sees one link, the awk
`"link[0-9]+": \x7b` count sees none. -/
def exC5 : List Line := List.map String.data
  ["\x7b",
   "\"class_id\": \"com-snaplogic-pipeline\",",
   "\"class_version\": 9,",
   "\"property_map\": \x7b\x7d,",
   "\"snap_map\": \x7b",
   "\"11111111-1111-1111-1111-000000000000\": \x7b",
   "\"class_id\": \"com-snaplogic-snaps-a-b\"",
   "\x7d,",
   "\"11111111-1111-1111-1111-000000000001\": \x7b",
   "\"class_id\": \"com-snaplogic-snaps-a-c\"",
   "\x7d",
   "\x7d,",
   "\"link_map\": \x7b",
   "\"link1\": 0",
   "\x7d",
   "\x7d"]

/-- A fragment whose `snap_map` section is closed by its `\x7d,` line
before a UUID-shaped key occurs on a later line, outside the section. -/
def exC8 : List Line := List.map String.data
  ["\"snap_map\": \x7b",
   "\x7d,",
   "\"11111111-1111-1111-1111-000000000000\": \x7b"]

/-- A two-line document with no pipeline class and no snap_map header. -/
def exEmpty : List Line := List.map String.data ["\x7b", "\x7d"]

/-! ## Scanner-state lemmas

How each field of the awk state evolves across one line and across a whole
scan. -/

lemma ruleClass_class (l : Line) (s : AwkState) :
    (ruleClass l s).pipeline_class_found =
      (s.pipeline_class_found || containsSub patClassPipeline l) := by
  unfold ruleClass; split <;> simp_all

lemma ruleSnaps_class (l : Line) (s : AwkState) :
    (ruleSnaps l s).pipeline_class_found = s.pipeline_class_found := by
  unfold ruleSnaps; split <;> rfl

lemma ruleLinks_class (l : Line) (s : AwkState) :
    (ruleLinks l s).pipeline_class_found = s.pipeline_class_found := by
  unfold ruleLinks; split <;> rfl

lemma ruleLinkEnd_class (l : Line) (s : AwkState) :
    (ruleLinkEnd l s).pipeline_class_found = s.pipeline_class_found := by
  unfold ruleLinkEnd; split <;> rfl

lemma ruleSnapMapEnter_class (l : Line) (s : AwkState) :
    (ruleSnapMapEnter l s).pipeline_class_found = s.pipeline_class_found := by
  unfold ruleSnapMapEnter; split <;> rfl

lemma ruleSnapIds_class (l : Line) (s : AwkState) :
    (ruleSnapIds l s).pipeline_class_found = s.pipeline_class_found := by
  unfold ruleSnapIds; split <;> rfl

lemma awkStep_class (s : AwkState) (l : Line) :
    (awkStep s l).pipeline_class_found =
      (s.pipeline_class_found || containsSub patClassPipeline l) := by
  unfold awkStep
  rw [ruleSnapIds_class, ruleSnapMapEnter_class, ruleLinkEnd_class, ruleLinks_class,
    ruleSnaps_class, ruleClass_class]

lemma ruleClass_snapMap (l : Line) (s : AwkState) :
    (ruleClass l s).in_snap_map = s.in_snap_map := by
  unfold ruleClass; split <;> rfl

lemma ruleSnaps_snapMap (l : Line) (s : AwkState) :
    (ruleSnaps l s).in_snap_map = s.in_snap_map := by
  unfold ruleSnaps; split <;> rfl

lemma ruleLinks_snapMap (l : Line) (s : AwkState) :
    (ruleLinks l s).in_snap_map = s.in_snap_map := by
  unfold ruleLinks; split <;> rfl

lemma ruleLinkEnd_snapMap (l : Line) (s : AwkState) :
    (ruleLinkEnd l s).in_snap_map = s.in_snap_map := by
  unfold ruleLinkEnd; split <;> rfl

lemma ruleSnapMapEnter_snapMap (l : Line) (s : AwkState) :
    (ruleSnapMapEnter l s).in_snap_map =
      (s.in_snap_map || containsSub patSnapMapKey l) := by
  unfold ruleSnapMapEnter; split <;> simp_all

lemma ruleSnapIds_snapMap (l : Line) (s : AwkState) :
    (ruleSnapIds l s).in_snap_map = s.in_snap_map := by
  unfold ruleSnapIds; split <;> rfl

lemma awkStep_inSnapMap (s : AwkState) (l : Line) :
    (awkStep s l).in_snap_map = (s.in_snap_map || containsSub patSnapMapKey l) := by
  unfold awkStep
  rw [ruleSnapIds_snapMap, ruleSnapMapEnter_snapMap, ruleLinkEnd_snapMap, ruleLinks_snapMap,
    ruleSnaps_snapMap, ruleClass_snapMap]

lemma ruleClass_snapIds (l : Line) (s : AwkState) :
    (ruleClass l s).snap_ids_found = s.snap_ids_found := by
  unfold ruleClass; split <;> rfl

lemma ruleSnaps_snapIds (l : Line) (s : AwkState) :
    (ruleSnaps l s).snap_ids_found = s.snap_ids_found := by
  unfold ruleSnaps; split <;> rfl

lemma ruleLinks_snapIds (l : Line) (s : AwkState) :
    (ruleLinks l s).snap_ids_found = s.snap_ids_found := by
  unfold ruleLinks; split <;> rfl

lemma ruleLinkEnd_snapIds (l : Line) (s : AwkState) :
    (ruleLinkEnd l s).snap_ids_found = s.snap_ids_found := by
  unfold ruleLinkEnd; split <;> rfl

lemma ruleSnapMapEnter_snapIds (l : Line) (s : AwkState) :
    (ruleSnapMapEnter l s).snap_ids_found = s.snap_ids_found := by
  unfold ruleSnapMapEnter; split <;> rfl

lemma ruleSnapIds_snapIds (l : Line) (s : AwkState) :
    (ruleSnapIds l s).snap_ids_found =
      s.snap_ids_found + (if s.in_snap_map && hasMatch uuidKeyAt l then 1 else 0) := by
  unfold ruleSnapIds; split <;> simp_all

lemma awkStep_snapIds (s : AwkState) (l : Line) :
    (awkStep s l).snap_ids_found =
      s.snap_ids_found +
        (if (s.in_snap_map || containsSub patSnapMapKey l) && hasMatch uuidKeyAt l then 1
         else 0) := by
  unfold awkStep
  rw [ruleSnapIds_snapIds, ruleSnapMapEnter_snapMap, ruleLinkEnd_snapMap, ruleLinks_snapMap,
    ruleSnaps_snapMap, ruleClass_snapMap, ruleSnapMapEnter_snapIds, ruleLinkEnd_snapIds,
    ruleLinks_snapIds, ruleSnaps_snapIds, ruleClass_snapIds]

lemma foldl_awkStep_class (lines : List Line) (s : AwkState) :
    (lines.foldl awkStep s).pipeline_class_found =
      (s.pipeline_class_found || lines.any (containsSub patClassPipeline)) := by
  induction lines generalizing s with
  | nil => simp
  | cons l rest ih =>
    simp [List.foldl_cons, ih, awkStep_class, List.any_cons, Bool.or_assoc]

/-- The awk flag and the shell grep agree on discriminator presence: both
test the same literal pattern over the same lines. -/
lemma awkScan_class (lines : List Line) :
    (awkScan lines).pipeline_class_found = compClassFound lines := by
  unfold awkScan awkInit compClassFound
  rw [foldl_awkStep_class]
  simp

lemma foldl_awkStep_inSnapMap (lines : List Line) (s : AwkState) :
    (lines.foldl awkStep s).in_snap_map =
      (s.in_snap_map || lines.any (containsSub patSnapMapKey)) := by
  induction lines generalizing s with
  | nil => simp
  | cons l rest ih =>
    simp [List.foldl_cons, ih, awkStep_inSnapMap, List.any_cons, Bool.or_assoc]

/-- Once the scanner is inside the snap_map section it counts every
UUID-key line of the remainder of the file: the flag is never reset. -/
lemma foldl_awkStep_snapIds_inside (lines : List Line) (s : AwkState)
    (h : s.in_snap_map = true) :
    (lines.foldl awkStep s).snap_ids_found =
      s.snap_ids_found + lines.countP (hasMatch uuidKeyAt) := by
  induction lines generalizing s with
  | nil => simp
  | cons l rest ih =>
    have h2 : (awkStep s l).in_snap_map = true := by
      rw [awkStep_inSnapMap, h]; rfl
    rw [List.foldl_cons, ih _ h2, awkStep_snapIds, h, List.countP_cons]
    rcases hm : hasMatch uuidKeyAt l <;> (simp [hm]; try omega)

/-- Before any snap_map header has been seen, no UUID-key line is counted. -/
lemma foldl_awkStep_snapIds_outside (lines : List Line) (s : AwkState)
    (h : s.in_snap_map = false)
    (hn : lines.all (fun l => !containsSub patSnapMapKey l) = true) :
    (lines.foldl awkStep s).snap_ids_found = s.snap_ids_found ∧
      (lines.foldl awkStep s).in_snap_map = false := by
  induction lines generalizing s with
  | nil => exact ⟨rfl, h⟩
  | cons l rest ih =>
    rw [List.all_cons, Bool.and_eq_true] at hn
    obtain ⟨hl', hrest⟩ := hn
    have hl : containsSub patSnapMapKey l = false := by simpa using hl'
    have hstep : (awkStep s l).in_snap_map = false := by
      rw [awkStep_inSnapMap, h, hl]; rfl
    have hids : (awkStep s l).snap_ids_found = s.snap_ids_found := by
      rw [awkStep_snapIds, h, hl]; simp
    rw [List.foldl_cons]
    exact ⟨by rw [(ih _ hstep hrest).1, hids], (ih _ hstep hrest).2⟩

/-! ## Validator bookkeeping lemmas -/

lemma compMain_exit_eq (jsonValid : Bool) (lines : List Line) :
    (compMain jsonValid lines).exit =
      (if (validate_json_wf jsonValid).1 && (validate_pipeline_structure lines).1 &&
          (validate_uuids lines).1 && (validate_required_fields lines).1 then 0 else 1) := rfl

lemma compMain_entries_eq (jsonValid : Bool) (lines : List Line) :
    (compMain jsonValid lines).entries =
      (validate_json_wf jsonValid).2 ++ (validate_pipeline_structure lines).2 ++
        (validate_uuids lines).2 ++ (validate_required_fields lines).2 := rfl

lemma vjson_ok_iff (jsonValid : Bool) :
    ((validate_json_wf jsonValid).1 = true ↔
      (validate_json_wf jsonValid).2.countP Entry.isErr = 0) := by
  cases jsonValid <;> simp [validate_json_wf, Entry.isErr]

lemma vstruct_ok_iff (lines : List Line) :
    ((validate_pipeline_structure lines).1 = true ↔
      (validate_pipeline_structure lines).2.countP Entry.isErr = 0) := by
  unfold validate_pipeline_structure
  split
  · simp [Entry.isErr]
  · split
    · split <;> simp [Entry.isErr]
    · split
      · split <;> simp [Entry.isErr]
      · simp [Entry.isErr]

lemma vuuid_ok_empty (lines : List Line) :
    ((validate_uuids lines).1 = true ↔ missingUuidsOf lines = []) := by
  rcases h : missingUuidsOf lines with _ | ⟨a, t⟩ <;> simp [validate_uuids, h]

lemma vuuid_ok_iff (lines : List Line) :
    ((validate_uuids lines).1 = true ↔
      (validate_uuids lines).2.countP Entry.isErr = 0) := by
  rcases h : missingUuidsOf lines with _ | ⟨a, t⟩ <;>
    simp [validate_uuids, h, Entry.isErr, List.countP_cons, List.countP_map]

lemma vfields_ok_iff (lines : List Line) :
    ((validate_required_fields lines).1 = true ↔
      (validate_required_fields lines).2.countP Entry.isErr = 0) := by
  rcases h : requiredFieldPats.find? (fun f => !lines.any (containsSub f)) with _ | f <;>
    simp [validate_required_fields, h, Entry.isErr]

/-- Exit 0 iff no recorded error: each validator returns failure exactly
when it has recorded at least one error entry. -/
lemma compMain_exit_iff (jsonValid : Bool) (lines : List Line) :
    ((compMain jsonValid lines).exit = 0 ↔ errorCount (compMain jsonValid lines) = 0) := by
  have h1 := vjson_ok_iff jsonValid
  have h2 := vstruct_ok_iff lines
  have h3 := vuuid_ok_iff lines
  have h4 := vfields_ok_iff lines
  rw [compMain_exit_eq]
  unfold errorCount
  rw [compMain_entries_eq, List.countP_append, List.countP_append, List.countP_append]
  constructor
  · intro h0
    by_cases hb : ((validate_json_wf jsonValid).1 && (validate_pipeline_structure lines).1 &&
        (validate_uuids lines).1 && (validate_required_fields lines).1) = true
    · rw [Bool.and_eq_true, Bool.and_eq_true, Bool.and_eq_true] at hb
      obtain ⟨⟨⟨b1, b2⟩, b3⟩, b4⟩ := hb
      rw [h1.mp b1, h2.mp b2, h3.mp b3, h4.mp b4]
    · rw [if_neg hb] at h0
      exact absurd h0 one_ne_zero
  · intro hsum
    have c1 : (validate_json_wf jsonValid).2.countP Entry.isErr = 0 := by omega
    have c2 : (validate_pipeline_structure lines).2.countP Entry.isErr = 0 := by omega
    have c3 : (validate_uuids lines).2.countP Entry.isErr = 0 := by omega
    have c4 : (validate_required_fields lines).2.countP Entry.isErr = 0 := by omega
    rw [h1.mpr c1, h2.mpr c2, h3.mpr c3, h4.mpr c4]
    simp

lemma missing_nil_iff (lines : List Line) :
    (missingUuidsOf lines = [] ↔
      ∀ u ∈ linkUuidsOf lines, u ∈ snapMapUuidsOf lines) := by
  unfold missingUuidsOf
  rw [List.filter_eq_nil_iff]
  constructor
  · intro h u hu
    have hx := h u hu
    simpa using hx
  · intro h u hu
    simpa using h u hu

/-! ## Claim theorems -/

/-- Claim C1: in both paths, a document whose snap count `N` exceeds 1
passes the snap/link-relationship check iff the path's link count equals
`N - 1`, and otherwise that check produces the mismatch diagnostic
reporting the found and the expected counts.  Each path applies the rule to
its own extracted counts. -/
theorem c1_link_count_relationship (lines : List Line) :
    (1 < (awkScan lines).snap_count →
      ((awkLinkError (awkScan lines) = none ↔
          (awkScan lines).link_count = (awkScan lines).snap_count - 1) ∧
        ((awkScan lines).link_count ≠ (awkScan lines).snap_count - 1 →
          awkLinkError (awkScan lines) =
            some (awkLinkMismatchMsg (awkScan lines).link_count (awkScan lines).snap_count)))) ∧
    (compClassFound lines = true → 1 < compSnapCount lines →
      (((validate_pipeline_structure lines).1 = true ↔
          compLinkCount lines = compSnapCount lines - 1) ∧
        (compLinkCount lines ≠ compSnapCount lines - 1 →
          (validate_pipeline_structure lines).2 =
            [Entry.error
              (structMismatchMsg (compSnapCount lines) (compSnapCount lines - 1)
                (compLinkCount lines))]))) := by
  constructor
  · intro h
    by_cases hne : (awkScan lines).link_count = (awkScan lines).snap_count - 1 <;>
      refine ⟨?_, ?_⟩ <;> simp [awkLinkError, h, hne]
  · intro hclass hgt
    by_cases heq : compLinkCount lines = compSnapCount lines - 1 <;>
      refine ⟨?_, ?_⟩ <;> simp [validate_pipeline_structure, hclass, hgt, heq]

/-- Witness for C1 on a concrete two-snap document with one link. -/
theorem c1_witness :
    awkLinkError (awkScan exOk) = none ∧ (validate_pipeline_structure exOk).1 = true :=
  ⟨((c1_link_count_relationship exOk).1 (by decide)).1.mpr (by decide),
   ((c1_link_count_relationship exOk).2 (by decide) (by decide)).1.mpr (by decide)⟩

/-- Counterexample for C2 as stated: `exC2` has an edge whose source
identifier `bogus` is not a key of any mapping, yet the comprehensive
path's referential check passes (the check only examines endpoints of the
fixed marker-UUID shape) and the whole run exits 0. -/
theorem c2_counterexample :
    ("bogus").data ∈ docEndpoints exC2 ∧ ("bogus").data ∉ docKeys exC2 ∧
    validate_uuids exC2 = (true, []) ∧ (compMain true exC2).exit = 0 := by decide

/-- Claim C2 (amended): the referential check passes iff every
marker-UUID-shaped edge endpoint appears among the marker-UUID-shaped keys
of the snap_map window; when it fails, it records exactly one
dangling-reference error naming each unresolved identifier.  Endpoints not
of the marker shape are never examined. -/
theorem c2_referential_integrity (lines : List Line) :
    ((validate_uuids lines).1 = true ↔
      ∀ u ∈ linkUuidsOf lines, u ∈ snapMapUuidsOf lines) ∧
    (validate_uuids lines).2 =
      (missingUuidsOf lines).map (fun u => Entry.error (danglingMsg u)) := by
  constructor
  · rw [vuuid_ok_empty]; exact missing_nil_iff lines
  · rcases h : missingUuidsOf lines with _ | ⟨a, t⟩ <;> simp [validate_uuids, h]

/-- Witness for C2 on the accepted two-snap document. -/
theorem c2_witness : (validate_uuids exOk).1 = true :=
  (c2_referential_integrity exOk).1.mpr (by decide)

/-- Counterexample for C3 as stated: `exC3` has unbalanced braces (three
unclosed), hence is not parseable as JSON, yet the fast path runs its
structural checks and accepts it with exit 0 — it performs no syntax check
at all. -/
theorem c3_counterexample :
    bracesBalanced exC3 = false ∧ fastRun exC3 = (0, []) := by decide

/-- Claim C3 (amended): the comprehensive path records a syntax error and
exits 1 on unparseable input, but the structural, referential and
required-field checks still run and their diagnostics are appended after
the syntax error; the fast path has no syntax check. -/
theorem c3_syntax_error_behavior (lines : List Line) :
    (compMain false lines).exit = 1 ∧
    (compMain false lines).entries =
      Entry.error ("JSON syntax error") ::
        ((validate_pipeline_structure lines).2 ++ (validate_uuids lines).2 ++
          (validate_required_fields lines).2) := by
  constructor
  · rw [compMain_exit_eq]; simp [validate_json_wf]
  · rw [compMain_entries_eq]; simp [validate_json_wf]

/-- Counterexample for C4 as stated: `exC4` declares zero snaps, yet the
fast path accepts it (exit 0, no output): the awk `END` block has no
zero-snap check. -/
theorem c4_counterexample :
    (awkScan exC4).snap_count = 0 ∧ fastRun exC4 = (0, []) := by decide

/-- Claim C4 (amended): the comprehensive path rejects a zero-snap
document with the no-snaps error (in the final `else` of the
count-relationship analysis, after the discriminator check); the fast path
has no zero-snap check — with the discriminator present and zero snaps it
accepts exactly when its snap-id count is also zero. -/
theorem c4_zero_nodes (lines : List Line)
    (hclass : compClassFound lines = true) (h0 : compSnapCount lines = 0) :
    validate_pipeline_structure lines =
      (false, [Entry.error ("No snaps found in pipeline")]) ∧
    ((awkScan lines).pipeline_class_found = true →
      (awkScan lines).snap_count = 0 →
      (fastRun lines = (0, []) ↔ (awkScan lines).snap_ids_found = 0)) := by
  constructor
  · simp [validate_pipeline_structure, hclass, h0]
  · intro hc h0'
    by_cases hid : (awkScan lines).snap_ids_found = 0 <;>
      simp [fastRun, awkEnd, awkClassError, awkLinkError, awkIdError, hc, h0', hid]

/-- Witness for C4 (amended) on the zero-snap document. -/
theorem c4_witness :
    validate_pipeline_structure exC4 =
      (false, [Entry.error ("No snaps found in pipeline")]) :=
  (c4_zero_nodes exC4 (by decide) (by decide)).1

/-- Counterexample for C5 as stated: on `exC5` the fast path rejects with
a link/snap mismatch (its link pattern requires `"linkN": \x7b`, seeing 0
links), while the comprehensive path (whose pattern `"link[0-9]*":` counts
the `"link1": 0` line) accepts the document entirely with exit 0. -/
theorem c5_counterexample :
    fastRun exC5 = (1, ["Link/snap mismatch: 0 links for 2 snaps (expected 1)"]) ∧
    compMain true exC5 = ⟨0, []⟩ := by decide

/-- Claim C5 (amended): agreement does hold for the discriminator check:
any document the fast path rejects for a missing pipeline class is also
rejected by the comprehensive path, which records the corresponding
missing-class error (both test the same literal pattern). -/
theorem c5_fatal_agreement (jsonValid : Bool) (lines : List Line)
    (h : (awkScan lines).pipeline_class_found = false) :
    fastRun lines = (1, ["Missing pipeline class_id"]) ∧
    (compMain jsonValid lines).exit = 1 ∧
    Entry.error ("Missing pipeline class_id: com-snaplogic-pipeline") ∈
      (compMain jsonValid lines).entries := by
  have hc : compClassFound lines = false := by rw [← awkScan_class]; exact h
  have hv : validate_pipeline_structure lines =
      (false, [Entry.error ("Missing pipeline class_id: com-snaplogic-pipeline")]) := by
    simp [validate_pipeline_structure, hc]
  refine ⟨?_, ?_, ?_⟩
  · simp [fastRun, awkEnd, awkClassError, h]
  · rw [compMain_exit_eq, hv]; simp
  · rw [compMain_entries_eq, hv]; simp

/-- Witness for C5 (amended) on a document with no pipeline class. -/
theorem c5_witness : fastRun exEmpty = (1, ["Missing pipeline class_id"]) :=
  (c5_fatal_agreement true exEmpty (by decide)).1

/-- Claim C6: the fast path either exits 0 printing nothing, or exits 1
printing exactly one line — the diagnostic of the first failing check in
the order missing-class, link mismatch, id mismatch. -/
theorem c6_fast_single_diagnostic (lines : List Line) :
    ((fastRun lines).1 = 0 ∧ (fastRun lines).2 = [] ∨
      (fastRun lines).1 = 1 ∧ (fastRun lines).2.length = 1) ∧
    (awkEnd (awkScan lines) = none → fastRun lines = (0, [])) ∧
    (∀ m, awkClassError (awkScan lines) = some m → fastRun lines = (1, [m])) ∧
    (∀ m, awkClassError (awkScan lines) = none → awkLinkError (awkScan lines) = some m →
      fastRun lines = (1, [m])) ∧
    (∀ m, awkClassError (awkScan lines) = none → awkLinkError (awkScan lines) = none →
      awkIdError (awkScan lines) = some m → fastRun lines = (1, [m])) := by
  refine ⟨?_, ?_, ?_, ?_, ?_⟩
  · rcases hm : awkEnd (awkScan lines) with _ | m <;> simp [fastRun, hm]
  · intro hm; simp [fastRun, hm]
  · intro m hm; simp [fastRun, awkEnd, hm]
  · intro m h1 h2; simp [fastRun, awkEnd, h1, h2]
  · intro m h1 h2 h3; simp [fastRun, awkEnd, h1, h2, h3]

/-- Witness for C6: the accepted document exits 0 with no output. -/
theorem c6_witness : fastRun exOk = (0, []) :=
  (c6_fast_single_diagnostic exOk).2.1 (by decide)

/-- Claim C7: a single-snap document passes the structure check — with no
entry when it has no links and with a warning (not an error) otherwise —
and the comprehensive exit code is 0 iff the error count is 0 (warnings
never affect it). -/
theorem c7_single_snap_warning (jsonValid : Bool) (lines : List Line)
    (hclass : compClassFound lines = true) (h1 : compSnapCount lines = 1) :
    (validate_pipeline_structure lines).1 = true ∧
    (validate_pipeline_structure lines).2 =
      (if compLinkCount lines = 0 then []
       else [Entry.warning (singleSnapWarnMsg (compLinkCount lines))]) ∧
    ((compMain jsonValid lines).exit = 0 ↔ errorCount (compMain jsonValid lines) = 0) := by
  refine ⟨?_, ?_, compMain_exit_iff jsonValid lines⟩ <;>
    by_cases hl : compLinkCount lines = 0 <;>
      simp [validate_pipeline_structure, hclass, h1, hl]

/-- Witness for C7 on the single-snap document. -/
theorem c7_witness : (validate_pipeline_structure exOne).1 = true :=
  (c7_single_snap_warning true exOne (by decide) (by decide)).1

/-- Counterexample for C8 as stated: in `exC8` the snap_map section is
closed by its `\x7d,` line before the UUID-shaped key on the last line,
yet the scanner counts that key (`snap_ids_found = 1`): the section flag is
still set after the section ends, because no rule ever clears it. -/
theorem c8_counterexample :
    (awkScan exC8).snap_ids_found = 1 ∧ (awkScan exC8).in_snap_map = true := by decide

/-- Claim C8 (amended): the section flag is set by the header line and
never cleared.  Identifier-shaped keys on lines before any header are
never counted (and the flag stays off), while from any state with the flag
on, every identifier-key line of the remaining input is counted, inside
the section or after it. -/
theorem c8_snap_map_flag (pre post : List Line)
    (hpre : pre.all (fun l => !containsSub patSnapMapKey l) = true) :
    (awkScan pre).snap_ids_found = 0 ∧
    (awkScan pre).in_snap_map = false ∧
    (∀ s : AwkState, s.in_snap_map = true →
      (post.foldl awkStep s).snap_ids_found =
        s.snap_ids_found + post.countP (hasMatch uuidKeyAt)) := by
  have h := foldl_awkStep_snapIds_outside pre awkInit rfl hpre
  exact ⟨h.1, h.2, fun s hs => foldl_awkStep_snapIds_inside post s hs⟩

/-- Witness for C8 (amended) on a header-free document. -/
theorem c8_witness : (awkScan exEmpty).snap_ids_found = 0 :=
  (c8_snap_map_flag exEmpty [] (by decide)).1

/-- Arguments of the C9 counterexample: two file arguments with a help
flag between them. -/
def exArgs : List String := ["a", "-h", "b"]

/-- A filesystem with no files. -/
def exFsNone : String → Option (Bool × List Line) := fun _ => none

/-- Counterexample for C9 as stated: `exArgs` carries two non-flag (file)
arguments, but the tool exits via the usage path of the interleaved help
flag, not with the multiple-files error the claim requires. -/
theorem c9_counterexample :
    exArgs.countP (fun a => !isFlag a && !(a == "")) = 2 ∧
    runTool exArgs exFsNone =
      { exit := 1, validated := [], preError := some ("usage") } := by decide

/-- The argument loop rejects with the multiple-files error whenever the
nonempty positional arguments together with an already-selected file
number at least two and no help flag occurs. -/
lemma parseArgsFrom_multi (args : List String) (c : Config)
    (hh : args.all (fun a => !(a == "-h" || a == "--help")) = true)
    (hcount : 2 ≤ args.countP (fun a => !isFlag a && !(a == "")) +
        (if c.file == "" then 0 else 1)) :
    parseArgsFrom args c = .exitMultipleFiles := by
  induction args generalizing c with
  | nil =>
    rw [List.countP_nil] at hcount
    split at hcount <;> omega
  | cons a rest ih =>
    rw [List.all_cons, Bool.and_eq_true] at hh
    obtain ⟨ha, hrest⟩ := hh
    rw [List.countP_cons] at hcount
    unfold parseArgsFrom
    cases hv : (a == "-v" || a == "--verbose") with
    | true =>
      rw [if_pos rfl]
      refine ih _ hrest ?_
      have hf : isFlag a = true := by simp [isFlag, hv]
      simp [hf] at hcount
      simpa using hcount
    | false =>
      rw [if_neg (by simp)]
      cases hq : (a == "-q" || a == "--quiet") with
      | true =>
        rw [if_pos rfl]
        refine ih _ hrest ?_
        have hf : isFlag a = true := by simp [isFlag, hq]
        simp [hf] at hcount
        simpa using hcount
      | false =>
        rw [if_neg (by simp)]
        cases hj : (a == "-j" || a == "--json") with
        | true =>
          rw [if_pos rfl]
          refine ih _ hrest ?_
          have hf : isFlag a = true := by simp [isFlag, hj]
          simp [hf] at hcount
          simpa using hcount
        | false =>
          rw [if_neg (by simp)]
          cases hhp : (a == "-h" || a == "--help") with
          | true => simp [hhp] at ha
          | false =>
            rw [if_neg (by simp)]
            have hflag : isFlag a = false := by simp [isFlag, hv, hq, hj, hhp]
            cases hfile : (c.file == "") with
            | true =>
              rw [if_pos rfl]
              refine ih _ hrest ?_
              cases hae : (a == "") with
              | true =>
                simp [hflag, hae, hfile] at hcount ⊢
                omega
              | false =>
                simp [hflag, hae, hfile] at hcount ⊢
                exact hcount
            | false =>
              rw [if_neg (by simp)]

/-- Claim C9 (amended): a run that exits 0 validated exactly one file;
and an invocation whose arguments contain at least two nonempty non-flag
arguments and no help flag exits 1 with the multiple-files error before
validating anything. -/
theorem c9_single_file :
    (∀ (args : List String) (fs : String → Option (Bool × List Line)),
      (runTool args fs).exit = 0 → (runTool args fs).validated.length = 1) ∧
    (∀ (args : List String) (fs : String → Option (Bool × List Line)),
      args.all (fun a => !(a == "-h" || a == "--help")) = true →
      2 ≤ args.countP (fun a => !isFlag a && !(a == "")) →
      runTool args fs = { exit := 1, validated := [], preError := some multiFilesMsg }) := by
  constructor
  · intro args fs h0
    rcases hp : parseArgs args with _ | _ | c
    · simp [runTool, hp] at h0
    · simp [runTool, hp] at h0
    · cases hf : (c.file == "") with
      | true => simp [runTool, hp, hf] at h0
      | false =>
        rcases hfs : fs c.file with _ | ⟨jv, ls⟩
        · simp [runTool, hp, hf, hfs] at h0
        · simp [runTool, hp, hf, hfs]
  · intro args fs hh hcount
    unfold runTool parseArgs
    rw [parseArgsFrom_multi args {} hh (by simpa using hcount)]

/-- Witness for C9 (amended) on two plain file arguments. -/
theorem c9_witness :
    runTool (["a", "b"]) exFsNone =
      { exit := 1, validated := [], preError := some multiFilesMsg } :=
  c9_single_file.2 (["a", "b"]) exFsNone (by decide) (by decide)

/-- A two-entry catalog for the C10 witness. -/
def exCatalog : List (String × SnapInfo) :=
  [("com-snaplogic-snaps-transform-datatransform",
    { name := "Mapper", category := "transform",
      description := "Transforms data fields", version := 1 }),
   ("com-snaplogic-snaps-flow-router",
    { name := "Router", category := "flow",
      description := "Routes documents", version := 1 })]

/-- Claim C10: with the `Map`'s key-uniqueness invariant, the search
returns nothing for a normalised query shorter than two characters;
otherwise its results are exactly the catalog entries whose searchable
text contains the query and that pass the category filter, ordered by
descending score with ties broken alphabetically by class id.  The result
is a function of the cache state and the query, hence deterministic. -/
theorem c10_search_results (catalog : List (String × SnapInfo)) (query : String)
    (cat : Option String) (_hnd : (catalog.map Prod.fst).Nodup) :
    ((normQuery query).length < 2 → searchSnaps catalog query cat = []) ∧
    (∀ e, e ∈ searchSnaps catalog query cat ↔
      (¬(normQuery query).length < 2 ∧ e ∈ catalog ∧ categoryPass cat e.2 = true ∧
        strIncludes (searchableText e.1 e.2) (normQuery query) = true)) ∧
    (searchSnaps catalog query cat).Pairwise (hitRel (normQuery query)) := by
  by_cases hq : (normQuery query).length < 2
  · refine ⟨fun _ => ?_, fun e => ?_, ?_⟩
    · rw [searchSnaps, if_pos hq]
    · rw [searchSnaps, if_pos hq]; simp [hq]
    · rw [searchSnaps, if_pos hq]; exact List.Pairwise.nil
  · refine ⟨fun h => absurd h hq, fun e => ?_, ?_⟩
    · rw [searchSnaps, if_neg hq]
      constructor
      · intro he
        have hmem := (List.perm_insertionSort (hitRel (normQuery query)) _).mem_iff.mp he
        rw [List.mem_filter] at hmem
        obtain ⟨hcat, hb⟩ := hmem
        rw [Bool.and_eq_true] at hb
        exact ⟨hq, hcat, hb.1, hb.2⟩
      · rintro ⟨_, hcat, hpass, hincl⟩
        apply (List.perm_insertionSort (hitRel (normQuery query)) _).mem_iff.mpr
        rw [List.mem_filter]
        exact ⟨hcat, by rw [Bool.and_eq_true]; exact ⟨hpass, hincl⟩⟩
    · rw [searchSnaps, if_neg hq]
      exact List.sorted_insertionSort _ _

/-- Witness for C10: a one-character query yields no results. -/
theorem c10_witness : searchSnaps exCatalog ("x") none = [] :=
  (c10_search_results exCatalog ("x") none (by decide)).1 (by decide)

end Vibe
